import Mathlib

/-!
# Verification of the UVSN streaming RAW-image analysis core

This file embeds, in Lean, the core of `api/analyze.py`:

* `ImageAnalyzer.matlab_compatible_streaming_analysis` — black-level
  correction, strip-wise demosaicing, streaming statistics, finalization;
* `ImageAnalyzer.demosaic_strip` — mask building, seeding, and bilinear
  interpolation via `np.roll` (wraparound) neighbor shifts.

Modelling conventions:

* a sensor grid is a total function `ℕ → ℕ → ℤ` together with explicit
  `height`/`width` bounds; only indices below the bounds are ever read;
* numpy float32/float64 arithmetic is modelled exactly over `ℚ`
  (demosaic values of uint16-range integers are integers and exact
  halves/quarters, all representable exactly in float32);
* `np.roll(a, ±1, axis)` is modelled by modular index arithmetic;
* Python exceptions that escape the analysis are modelled by
  `Except String`; the reported standard deviations are the real square
  roots of the `varRClamped`/`varGClamped` fields of the result.
-/

set_option maxRecDepth 8000

namespace UVSN

/-- Running statistics state: the accumulators of
`matlab_compatible_streaming_analysis` (lines 183-188 of analyze.py). -/
structure Accum where
  sumR : ℚ
  sumG : ℚ
  sumB : ℚ
  sumRChrom : ℚ
  sumGChrom : ℚ
  sumRChromSq : ℚ
  sumGChromSq : ℚ
  maxR : ℚ
  maxG : ℚ
  maxB : ℚ
  nPixels : ℕ
  nChrom : ℕ
  deriving Repr, DecidableEq

/-- The zero-initialized accumulator state. -/
def Accum.init : Accum :=
  { sumR := 0, sumG := 0, sumB := 0
    sumRChrom := 0, sumGChrom := 0
    sumRChromSq := 0, sumGChromSq := 0
    maxR := 0, maxG := 0, maxB := 0
    nPixels := 0, nChrom := 0 }

/-- The record returned by the streaming analysis (lines 265-278).
The reported `stdRChromaticity` / `stdGChromaticity` are
`Real.sqrt varRClamped` / `Real.sqrt varGClamped`. -/
structure AnalysisResult where
  width : ℕ
  height : ℕ
  meanR : ℚ
  meanG : ℚ
  meanB : ℚ
  meanRChrom : ℚ
  meanGChrom : ℚ
  varRClamped : ℚ
  varGClamped : ℚ
  maxR : ℚ
  maxG : ℚ
  maxB : ℚ
  deriving Repr, DecidableEq

/-! ## Pattern model -/

/-- The four 2×2 phase cells in row-major order, as traversed by
`np.argwhere` (row-major) and the correction loops. -/
def cells4 : List (ℕ × ℕ) := [(0, 0), (0, 1), (1, 0), (1, 1)]

/-- `np.argwhere(pattern == c)[0]`: the first phase cell (row-major)
whose channel index is `c`; `none` when the channel does not occur
(in which case Python raises an IndexError). -/
def findPos (pat : ℕ → ℕ → ℕ) (c : ℕ) : Option (ℕ × ℕ) :=
  cells4.find? fun p => pat p.1 p.2 == c

/-! ## Black-level correction (lines 172-179) -/

/-- One pass of the correction loop: `cfa_full[i0::2, j0::2] -= black_levels[pattern[i0, j0]]`. -/
def blSub (pat : ℕ → ℕ → ℕ) (bl : ℕ → ℤ) (i0 j0 : ℕ) (g : ℕ → ℕ → ℤ) :
    ℕ → ℕ → ℤ :=
  fun r c => if r % 2 = i0 ∧ c % 2 = j0 then g r c - bl (pat i0 j0) else g r c

/-- The four correction passes (i0 = 0,1 × j0 = 0,1 in loop order)
followed by `np.maximum(0, cfa_full)`. -/
def blackCorrect (g : ℕ → ℕ → ℤ) (pat : ℕ → ℕ → ℕ) (bl : ℕ → ℤ) :
    ℕ → ℕ → ℤ :=
  fun r c =>
    max 0 ((blSub pat bl 1 1 (blSub pat bl 1 0 (blSub pat bl 0 1 (blSub pat bl 0 0 g)))) r c)

/-- Signed 32-bit wraparound interpretation of an integer, as in the
numpy `int32` dtype of `cfa_full`. -/
def toInt32 (x : ℤ) : ℤ := (x + 2 ^ 31) % 2 ^ 32 - 2 ^ 31

/-- Subtraction as performed on the `int32` grid: exact subtraction
followed by 32-bit wraparound. -/
def sub32 (a b : ℤ) : ℤ := toInt32 (a - b)

/-- The corrected grid as rational values, as produced by
`cfa_strip = cfa_full[...].astype(np.float32)` (uint16-range integers are
exact in float32). -/
def correctedQ (g : ℕ → ℕ → ℤ) (pat : ℕ → ℕ → ℕ) (bl : ℕ → ℤ) :
    ℕ → ℕ → ℚ :=
  fun i j => ((blackCorrect g pat bl i j : ℤ) : ℚ)

/-! ## Demosaicing one strip (`demosaic_strip`, lines 280-362) -/

/-- `np.roll(a, 1, axis=0)` source row for destination row `i` in a
strip of `h` rows: `(i - 1) mod h`. -/
def rollUp (h i : ℕ) : ℕ := (i + h - 1) % h

/-- `np.roll(a, -1, axis=0)` source row: `(i + 1) mod h`. -/
def rollDn (h i : ℕ) : ℕ := (i + 1) % h

/-- `np.roll(a, 1, axis=1)` source column: `(j - 1) mod w`. -/
def rollLf (w j : ℕ) : ℕ := (j + w - 1) % w

/-- `np.roll(a, -1, axis=1)` source column: `(j + 1) mod w`. -/
def rollRt (w j : ℕ) : ℕ := (j + 1) % w

/-- `row_phase = row_offset % 2` (line 298). -/
def rowPhase (off : ℕ) : ℕ := off % 2

/-- The channel index governing cell `(i, j)` of a strip whose first row
is image row `off`: the mask-building loop (lines 300-310) sets the mask
of `pattern[i0, j0]` at rows `≡ (i0 + row_phase) (mod 2)`, columns
`≡ j0 (mod 2)`, so cell `(i, j)` is governed by
`pattern[(i + row_phase) % 2, j % 2]`. -/
def chanAt (pat : ℕ → ℕ → ℕ) (off i j : ℕ) : ℕ :=
  pat ((i + rowPhase off) % 2) (j % 2)

/-- Seeded red plane: `rgb[:, :, 0] = np.where(r_mask, cfa, 0)`. -/
def seedR (cfa : ℕ → ℕ → ℚ) (pat : ℕ → ℕ → ℕ) (off i j : ℕ) : ℚ :=
  if chanAt pat off i j = 0 then cfa i j else 0

/-- Seeded green plane (`g_mask` covers channel indices 1 and 3). -/
def seedG (cfa : ℕ → ℕ → ℚ) (pat : ℕ → ℕ → ℕ) (off i j : ℕ) : ℚ :=
  if chanAt pat off i j = 1 ∨ chanAt pat off i j = 3 then cfa i j else 0

/-- Seeded blue plane: `rgb[:, :, 2] = np.where(b_mask, cfa, 0)`. -/
def seedB (cfa : ℕ → ℕ → ℚ) (pat : ℕ → ℕ → ℕ) (off i j : ℕ) : ℚ :=
  if chanAt pat off i j = 2 then cfa i j else 0

/-- Horizontal average `(np.roll(P, 1, 1) + np.roll(P, -1, 1)) / 2`. -/
def avgH (P : ℕ → ℕ → ℚ) (w i j : ℕ) : ℚ :=
  (P i (rollLf w j) + P i (rollRt w j)) / 2

/-- Vertical average `(np.roll(P, 1, 0) + np.roll(P, -1, 0)) / 2`. -/
def avgV (P : ℕ → ℕ → ℚ) (h i j : ℕ) : ℚ :=
  (P (rollUp h i) j + P (rollDn h i) j) / 2

/-- Diagonal average of the four corner neighbors (lines 322-325). -/
def avgD (P : ℕ → ℕ → ℚ) (h w i j : ℕ) : ℚ :=
  (P (rollUp h i) (rollLf w j) + P (rollUp h i) (rollRt w j) +
   P (rollDn h i) (rollLf w j) + P (rollDn h i) (rollRt w j)) / 4

/-- Axis-aligned cross average of the four up/down/left/right neighbors
(lines 357-358). -/
def avgX (P : ℕ → ℕ → ℚ) (h w i j : ℕ) : ℚ :=
  (P (rollUp h i) j + P (rollDn h i) j +
   P i (rollLf w j) + P i (rollRt w j)) / 4

/-- Red plane after the first `np.where` update:
`rgb[:,:,0] = np.where(need_r & b_mask, r_d, rgb[:,:,0])` (line 333). -/
def planeR1 (cfa : ℕ → ℕ → ℚ) (pat : ℕ → ℕ → ℕ) (h w off i j : ℕ) : ℚ :=
  if ¬chanAt pat off i j = 0 ∧ chanAt pat off i j = 2 then
    avgD (seedR cfa pat off) h w i j
  else seedR cfa pat off i j

/-- Red plane after the second update:
`np.where(need_r & ~b_mask & same_row_r, r_h, ...)` (line 334), where
`same_row_r` is `row_idx == (r_pos[0] + row_offset) % 2`. -/
def planeR2 (cfa : ℕ → ℕ → ℚ) (pat : ℕ → ℕ → ℕ) (h w rpRow off i j : ℕ) : ℚ :=
  if ¬chanAt pat off i j = 0 ∧ ¬chanAt pat off i j = 2 ∧
      i % 2 = (rpRow + off) % 2 then
    avgH (seedR cfa pat off) w i j
  else planeR1 cfa pat h w off i j

/-- Final red plane after the third update:
`np.where(need_r & ~b_mask & ~same_row_r, r_v, ...)` (line 335). -/
def demosaicR (cfa : ℕ → ℕ → ℚ) (pat : ℕ → ℕ → ℕ) (h w rpRow off i j : ℕ) : ℚ :=
  if ¬chanAt pat off i j = 0 ∧ ¬chanAt pat off i j = 2 ∧
      ¬i % 2 = (rpRow + off) % 2 then
    avgV (seedR cfa pat off) h i j
  else planeR2 cfa pat h w rpRow off i j

/-- Blue plane after `np.where(need_b & r_mask, b_d, ...)` (line 350). -/
def planeB1 (cfa : ℕ → ℕ → ℚ) (pat : ℕ → ℕ → ℕ) (h w off i j : ℕ) : ℚ :=
  if ¬chanAt pat off i j = 2 ∧ chanAt pat off i j = 0 then
    avgD (seedB cfa pat off) h w i j
  else seedB cfa pat off i j

/-- Blue plane after `np.where(need_b & ~r_mask & same_row_b, b_h, ...)`
(line 351), with `same_row_b = row_idx == (b_pos[0] + row_offset) % 2`. -/
def planeB2 (cfa : ℕ → ℕ → ℚ) (pat : ℕ → ℕ → ℕ) (h w bpRow off i j : ℕ) : ℚ :=
  if ¬chanAt pat off i j = 2 ∧ ¬chanAt pat off i j = 0 ∧
      i % 2 = (bpRow + off) % 2 then
    avgH (seedB cfa pat off) w i j
  else planeB1 cfa pat h w off i j

/-- Final blue plane after `np.where(need_b & ~r_mask & ~same_row_b, b_v, ...)`
(line 352). -/
def demosaicB (cfa : ℕ → ℕ → ℚ) (pat : ℕ → ℕ → ℕ) (h w bpRow off i j : ℕ) : ℚ :=
  if ¬chanAt pat off i j = 2 ∧ ¬chanAt pat off i j = 0 ∧
      ¬i % 2 = (bpRow + off) % 2 then
    avgV (seedB cfa pat off) h i j
  else planeB2 cfa pat h w bpRow off i j

/-- Final green plane: `rgb[:,:,1] = np.where(~g_mask, g_cross, rgb[:,:,1])`
(line 359). -/
def demosaicG (cfa : ℕ → ℕ → ℚ) (pat : ℕ → ℕ → ℕ) (h w off i j : ℕ) : ℚ :=
  if ¬(chanAt pat off i j = 1 ∨ chanAt pat off i j = 3) then
    avgX (seedG cfa pat off) h w i j
  else seedG cfa pat off i j

/-! ## Streaming accumulation (lines 190-244) -/

/-- All `(row, col)` index pairs of a `rows × w` plane, row-major. -/
def pixList (rows w : ℕ) : List (ℕ × ℕ) :=
  (List.range rows).flatMap fun i => (List.range w).map fun j => (i, j)

/-- Fold one (already trimmed) demosaiced strip into the accumulator
(lines 212-236): per-channel sums and running maxima, pixel counter, and
chromaticity sums/sum-of-squares/counter over cells with `R+G+B > 0`. -/
def accumStrip (acc : Accum) (R G B : ℕ → ℕ → ℚ) (rows w : ℕ) : Accum :=
  let pix := pixList rows w
  let sum3 := fun p : ℕ × ℕ => R p.1 p.2 + G p.1 p.2 + B p.1 p.2
  let valid := pix.filter fun p => decide (0 < sum3 p)
  { sumR := acc.sumR + (pix.map fun p => R p.1 p.2).sum
    sumG := acc.sumG + (pix.map fun p => G p.1 p.2).sum
    sumB := acc.sumB + (pix.map fun p => B p.1 p.2).sum
    maxR := pix.foldl (fun m p => max m (R p.1 p.2)) acc.maxR
    maxG := pix.foldl (fun m p => max m (G p.1 p.2)) acc.maxG
    maxB := pix.foldl (fun m p => max m (B p.1 p.2)) acc.maxB
    nPixels := acc.nPixels + rows * w
    sumRChrom := acc.sumRChrom + (valid.map fun p => R p.1 p.2 / sum3 p).sum
    sumGChrom := acc.sumGChrom + (valid.map fun p => G p.1 p.2 / sum3 p).sum
    sumRChromSq := acc.sumRChromSq +
      (valid.map fun p => R p.1 p.2 / sum3 p * (R p.1 p.2 / sum3 p)).sum
    sumGChromSq := acc.sumGChromSq +
      (valid.map fun p => G p.1 p.2 / sum3 p * (G p.1 p.2 / sum3 p)).sum
    nChrom := acc.nChrom + valid.length }

/-- Row-shifted view of a grid: `shiftRows f t` is `f` with the first
`t` rows dropped (strip extraction `cfa_full[a0:a1, :]` and the
padding-row trim `rgb_strip[1:, :, :]`). -/
def shiftRows (f : ℕ → ℕ → ℚ) (t : ℕ) : ℕ → ℕ → ℚ :=
  fun i j => f (t + i) j

/-- The number of rows of the strip starting at `st` that remain after
the padding-row trims (lines 195-210): padded length minus the top trim
and the conditional bottom trim. -/
def stripRows (h s st : ℕ) : ℕ :=
  let pt := if 0 < st then 1 else 0
  let pb := if st + s < h then 1 else 0
  let a0 := st - pt
  let a1 := min (st + s + pb) h
  let tb := if pb = 1 ∧ a1 < h then 1 else 0
  a1 - a0 - pt - tb

/-- One iteration of the strip loop (lines 193-240) for
`strip_start = st`: compute padding, extract the padded strip, demosaic
it with `row_offset = actual_start`, trim the padding rows, and fold the
result into the accumulator. -/
def stripStep (corr : ℕ → ℕ → ℚ) (h w s : ℕ) (pat : ℕ → ℕ → ℕ)
    (rpRow bpRow : ℕ) (acc : Accum) (st : ℕ) : Accum :=
  let pt := if 0 < st then 1 else 0
  let pb := if st + s < h then 1 else 0
  let a0 := st - pt
  let a1 := min (st + s + pb) h
  let len := a1 - a0
  let cfaS := shiftRows corr a0
  let Rp := demosaicR cfaS pat len w rpRow a0
  let Gp := demosaicG cfaS pat len w a0
  let Bp := demosaicB cfaS pat len w bpRow a0
  accumStrip acc (shiftRows Rp pt) (shiftRows Gp pt) (shiftRows Bp pt)
    (stripRows h s st) w

/-- `range(0, height, strip_height)`: the strip start rows. -/
def stripStarts (h s : ℕ) : List ℕ :=
  (List.range ((h + s - 1) / s)).map (· * s)

/-- The accumulator after the whole strip loop. -/
def runAccum (corr : ℕ → ℕ → ℚ) (h w s : ℕ) (pat : ℕ → ℕ → ℕ)
    (rpRow bpRow : ℕ) : Accum :=
  (stripStarts h s).foldl (stripStep corr h w s pat rpRow bpRow) Accum.init

/-- Finalization (lines 246-259): per-channel means, and the guarded
chromaticity branch; `varRClamped`/`varGClamped` are the arguments of
the reported `np.sqrt(max(0, var))`. -/
def finalize (h w : ℕ) (a : Accum) : AnalysisResult :=
    let nP : ℚ := (a.nPixels : ℚ)
    let base : AnalysisResult :=
      { width := w, height := h
        meanR := a.sumR / nP, meanG := a.sumG / nP, meanB := a.sumB / nP
        meanRChrom := 0, meanGChrom := 0
        varRClamped := 0, varGClamped := 0
        maxR := a.maxR, maxG := a.maxG, maxB := a.maxB }
    if 0 < a.nChrom then
      let nC : ℚ := (a.nChrom : ℚ)
      let mR := a.sumRChrom / nC
      let mG := a.sumGChrom / nC
      { base with
        meanRChrom := mR, meanGChrom := mG
        varRClamped := max 0 (a.sumRChromSq / nC - mR ^ 2)
        varGClamped := max 0 (a.sumGChromSq / nC - mG ^ 2) }
    else base

/-- The full streaming analysis `matlab_compatible_streaming_analysis`,
parameterized by the strip height `s` (the source fixes `s = 100`,
line 191). Python exceptions escape as `Except.error`:
* `IndexError` from `np.argwhere(pattern == 0)[0]` when the pattern has
  no red (or no blue) phase;
* `ValueError` from `np.max` on a zero-size strip (zero width);
* `ZeroDivisionError` from `sum_r / n_pixels` when no pixel was counted. -/
def analyze (g : ℕ → ℕ → ℤ) (h w : ℕ) (pat : ℕ → ℕ → ℕ) (bl : ℕ → ℤ)
    (s : ℕ) : Except String AnalysisResult :=
  match findPos pat 0, findPos pat 2 with
  | some rp, some bp =>
      let acc := runAccum (correctedQ g pat bl) h w s pat rp.1 bp.1
      if h ≠ 0 ∧ w = 0 then
        Except.error "ValueError: zero-size array to reduction operation"
      else if acc.nPixels = 0 then
        Except.error "ZeroDivisionError: float division by zero"
      else Except.ok (finalize h w acc)
  | _, _ =>
      Except.error "IndexError: index 0 is out of bounds for axis 0 with size 0"

/-- Modelled from the spec: the reference batch computation of P3, a
"direct single-pass-over-the-whole-grid computation" — black-level
correction, a single whole-image demosaic at row offset 0, one
accumulation pass over every pixel, and the same finalization formulas
(with the spec's `pixelCount == 0` guard). -/
def batchAnalyze (g : ℕ → ℕ → ℤ) (h w : ℕ) (pat : ℕ → ℕ → ℕ) (bl : ℕ → ℤ) :
    Except String AnalysisResult :=
  match findPos pat 0, findPos pat 2 with
  | some rp, some bp =>
      let corr := correctedQ g pat bl
      let acc := accumStrip Accum.init (demosaicR corr pat h w rp.1 0)
        (demosaicG corr pat h w 0) (demosaicB corr pat h w bp.1 0) h w
      if acc.nPixels = 0 then
        Except.error "ZeroDivisionError: float division by zero"
      else Except.ok (finalize h w acc)
  | _, _ =>
      Except.error "ConfigurationError: pattern has no red or no blue phase"

/-! ## Concrete fixtures -/

/-- The RGGB pattern `[[0, 1], [3, 2]]` (rawpy channel indices:
0 = R, 1 = G, 2 = B, 3 = second G). -/
def patRGGB : ℕ → ℕ → ℕ := fun i j =>
  if i = 0 then (if j = 0 then 0 else 1) else (if j = 0 then 3 else 2)

/-- A pattern with no red and no blue phase (all cells green). -/
def patAllG : ℕ → ℕ → ℕ := fun _ _ => 1

/-- The all-zero sensor grid. -/
def zeroG : ℕ → ℕ → ℤ := fun _ _ => 0

/-- An all-zero black-level table. -/
def bl0 : ℕ → ℤ := fun _ => 0

/-- A 3×2 sensor grid used to compare striping choices. -/
def exG2 : ℕ → ℕ → ℤ := fun i j =>
  if i = 0 then (if j = 0 then 100 else 40)
  else if i = 1 then (if j = 0 then 60 else 8)
  else if i = 2 then (if j = 0 then 20 else 4)
  else 0

/-- A 4×2 corrected CFA grid (rational values) used to compare a
full-image demosaic pass against a second-strip demosaic. -/
def exG4 : ℕ → ℕ → ℚ := fun i j =>
  if i = 1 ∧ j = 1 then 8 else
  if i = 0 ∧ j = 0 then 50 else
  if i = 2 ∧ j = 0 then 30 else 0

/-! ## Helper lemmas -/

/-- Dropping zero rows is the identity. -/
lemma shiftRows_zero (f : ℕ → ℕ → ℚ) : shiftRows f 0 = f := by
  funext i j
  simp [shiftRows]

/-- The four-pass correction loop touches each cell exactly once:
pointwise it is `max 0 (s - blackLevels[pattern[i mod 2, j mod 2]])`. -/
lemma blackCorrect_eq (g : ℕ → ℕ → ℤ) (pat : ℕ → ℕ → ℕ) (bl : ℕ → ℤ)
    (r c : ℕ) :
    blackCorrect g pat bl r c = max 0 (g r c - bl (pat (r % 2) (c % 2))) := by
  rcases Nat.mod_two_eq_zero_or_one r with hr | hr <;>
    rcases Nat.mod_two_eq_zero_or_one c with hc | hc <;>
    simp [blackCorrect, blSub, hr, hc]

/-! ## Claim theorems -/

/-- Claim C5: black-level correction maps each sample `s` at phase
`(i mod 2, j mod 2)` with channel `c = pattern[i mod 2, j mod 2]` to
exactly `max 0 (s - blackLevels[c])`; every corrected sample is `≥ 0`;
and in the `int32` type of the grid the subtraction of an in-range
black level from a uint16-range sample never wraps. -/
theorem black_level_correct_spec (g : ℕ → ℕ → ℤ) (pat : ℕ → ℕ → ℕ)
    (bl : ℕ → ℤ) :
    (∀ r c, blackCorrect g pat bl r c =
      max 0 (g r c - bl (pat (r % 2) (c % 2)))) ∧
    (∀ r c, 0 ≤ blackCorrect g pat bl r c) ∧
    (∀ a b : ℤ, 0 ≤ a → a < 2 ^ 16 → 0 ≤ b → b < 2 ^ 31 →
      sub32 a b = a - b) := by
  refine ⟨fun r c => blackCorrect_eq g pat bl r c,
    fun r c => le_max_left 0 _, fun a b h1 h2 h3 h4 => ?_⟩
  unfold sub32 toInt32
  omega

/-- Witness for C5 at concrete inputs. -/
theorem black_level_correct_spec_witness :
    blackCorrect exG2 patRGGB bl0 0 0 = max 0 (exG2 0 0 - bl0 (patRGGB 0 0)) ∧
    sub32 100 3 = (97 : ℤ) :=
  ⟨(black_level_correct_spec exG2 patRGGB bl0).1 0 0,
   (black_level_correct_spec exG2 patRGGB bl0).2.2 100 3 (by decide)
     (by decide) (by decide) (by decide)⟩

/-- Claim C6: the reported standard deviations are the real square
roots of the clamped variances `varRClamped`/`varGClamped`; these are
non-negative for every accumulator state, so the square root is never
taken of a negative number and the reported values are real and
non-negative. -/
theorem std_chromaticity_nonneg (h w : ℕ) (a : Accum) :
    0 ≤ (finalize h w a).varRClamped ∧ 0 ≤ (finalize h w a).varGClamped ∧
    Real.sqrt ((finalize h w a).varRClamped : ℝ) ^ 2 =
      ((finalize h w a).varRClamped : ℝ) ∧
    Real.sqrt ((finalize h w a).varGClamped : ℝ) ^ 2 =
      ((finalize h w a).varGClamped : ℝ) ∧
    0 ≤ Real.sqrt ((finalize h w a).varRClamped : ℝ) ∧
    0 ≤ Real.sqrt ((finalize h w a).varGClamped : ℝ) := by
  have h1 : 0 ≤ (finalize h w a).varRClamped := by
    unfold finalize
    split <;> simp [le_max_left]
  have h2 : 0 ≤ (finalize h w a).varGClamped := by
    unfold finalize
    split <;> simp [le_max_left]
  refine ⟨h1, h2, ?_, ?_, Real.sqrt_nonneg _, Real.sqrt_nonneg _⟩
  · exact Real.sq_sqrt (by exact_mod_cast h1)
  · exact Real.sq_sqrt (by exact_mod_cast h2)

/-- Claim C10: demosaicing preserves measured samples — at every cell
whose offset-adjusted phase carries channel C, the output of channel C
equals the input CFA sample exactly. -/
theorem demosaic_preserves_samples (cfa : ℕ → ℕ → ℚ) (pat : ℕ → ℕ → ℕ)
    (h w rpRow bpRow off i j : ℕ) :
    (chanAt pat off i j = 0 → demosaicR cfa pat h w rpRow off i j = cfa i j) ∧
    (chanAt pat off i j = 2 → demosaicB cfa pat h w bpRow off i j = cfa i j) ∧
    (chanAt pat off i j = 1 ∨ chanAt pat off i j = 3 →
      demosaicG cfa pat h w off i j = cfa i j) := by
  refine ⟨fun hc => ?_, fun hc => ?_, fun hc => ?_⟩
  · simp [demosaicR, planeR2, planeR1, seedR, hc]
  · simp [demosaicB, planeB2, planeB1, seedB, hc]
  · rcases hc with hc | hc <;> simp [demosaicG, seedG, hc]

/-- Witness for C10 at concrete cells of the RGGB fixture. -/
theorem demosaic_preserves_samples_witness :
    demosaicR exG4 patRGGB 4 2 0 0 0 0 = exG4 0 0 ∧
    demosaicB exG4 patRGGB 4 2 1 0 1 1 = exG4 1 1 ∧
    demosaicG exG4 patRGGB 4 2 0 0 1 = exG4 0 1 :=
  ⟨(demosaic_preserves_samples exG4 patRGGB 4 2 0 1 0 0 0).1 (by decide),
   (demosaic_preserves_samples exG4 patRGGB 4 2 0 1 0 1 1).2.1 (by decide),
   (demosaic_preserves_samples exG4 patRGGB 4 2 0 1 0 0 1).2.2
     (Or.inl (by decide))⟩

/-- Claim C7: the interpolation kernel at each cell is chosen by
neighbor geometry — for Red (resp. Blue), the diagonal 4-average at the
opposite primary's cells, the horizontal 2-average at cells on the
target's offset-adjusted native row phase, the vertical 2-average
otherwise; for Green, the axis-aligned 4-average at every non-Green
cell. Averages are taken over the seeded channel planes with wraparound
(`np.roll`) indexing. -/
theorem interpolation_kernel_selection (cfa : ℕ → ℕ → ℚ)
    (pat : ℕ → ℕ → ℕ) (h w rpRow bpRow off i j : ℕ) :
    (¬chanAt pat off i j = 0 → chanAt pat off i j = 2 →
      demosaicR cfa pat h w rpRow off i j =
        (seedR cfa pat off (rollUp h i) (rollLf w j) +
         seedR cfa pat off (rollUp h i) (rollRt w j) +
         seedR cfa pat off (rollDn h i) (rollLf w j) +
         seedR cfa pat off (rollDn h i) (rollRt w j)) / 4) ∧
    (¬chanAt pat off i j = 0 → ¬chanAt pat off i j = 2 →
      i % 2 = (rpRow + off) % 2 →
      demosaicR cfa pat h w rpRow off i j =
        (seedR cfa pat off i (rollLf w j) +
         seedR cfa pat off i (rollRt w j)) / 2) ∧
    (¬chanAt pat off i j = 0 → ¬chanAt pat off i j = 2 →
      ¬i % 2 = (rpRow + off) % 2 →
      demosaicR cfa pat h w rpRow off i j =
        (seedR cfa pat off (rollUp h i) j +
         seedR cfa pat off (rollDn h i) j) / 2) ∧
    (¬chanAt pat off i j = 2 → chanAt pat off i j = 0 →
      demosaicB cfa pat h w bpRow off i j =
        (seedB cfa pat off (rollUp h i) (rollLf w j) +
         seedB cfa pat off (rollUp h i) (rollRt w j) +
         seedB cfa pat off (rollDn h i) (rollLf w j) +
         seedB cfa pat off (rollDn h i) (rollRt w j)) / 4) ∧
    (¬chanAt pat off i j = 2 → ¬chanAt pat off i j = 0 →
      i % 2 = (bpRow + off) % 2 →
      demosaicB cfa pat h w bpRow off i j =
        (seedB cfa pat off i (rollLf w j) +
         seedB cfa pat off i (rollRt w j)) / 2) ∧
    (¬chanAt pat off i j = 2 → ¬chanAt pat off i j = 0 →
      ¬i % 2 = (bpRow + off) % 2 →
      demosaicB cfa pat h w bpRow off i j =
        (seedB cfa pat off (rollUp h i) j +
         seedB cfa pat off (rollDn h i) j) / 2) ∧
    (¬(chanAt pat off i j = 1 ∨ chanAt pat off i j = 3) →
      demosaicG cfa pat h w off i j =
        (seedG cfa pat off (rollUp h i) j +
         seedG cfa pat off (rollDn h i) j +
         seedG cfa pat off i (rollLf w j) +
         seedG cfa pat off i (rollRt w j)) / 4) := by
  refine ⟨fun h1 h2 => ?_, fun h1 h2 h3 => ?_, fun h1 h2 h3 => ?_,
    fun h1 h2 => ?_, fun h1 h2 h3 => ?_, fun h1 h2 h3 => ?_, fun h1 => ?_⟩
  · simp [demosaicR, planeR2, planeR1, avgD, h1, h2]
  · simp [demosaicR, planeR2, avgH, h1, h2, h3]
  · simp [demosaicR, avgV, h1, h2, h3]
  · simp [demosaicB, planeB2, planeB1, avgD, h1, h2]
  · simp [demosaicB, planeB2, avgH, h1, h2, h3]
  · simp [demosaicB, avgV, h1, h2, h3]
  · simp [demosaicG, avgX, h1]

/-- Witness for C7: the diagonal branch at the blue cell (1,1) and the
green branch at the red cell (0,0) of the RGGB fixture. -/
theorem interpolation_kernel_selection_witness :
    demosaicR exG4 patRGGB 4 2 0 0 1 1 =
      (seedR exG4 patRGGB 0 (rollUp 4 1) (rollLf 2 1) +
       seedR exG4 patRGGB 0 (rollUp 4 1) (rollRt 2 1) +
       seedR exG4 patRGGB 0 (rollDn 4 1) (rollLf 2 1) +
       seedR exG4 patRGGB 0 (rollDn 4 1) (rollRt 2 1)) / 4 ∧
    demosaicG exG4 patRGGB 4 2 0 0 0 =
      (seedG exG4 patRGGB 0 (rollUp 4 0) 0 +
       seedG exG4 patRGGB 0 (rollDn 4 0) 0 +
       seedG exG4 patRGGB 0 0 (rollLf 2 0) +
       seedG exG4 patRGGB 0 0 (rollRt 2 0)) / 4 :=
  ⟨(interpolation_kernel_selection exG4 patRGGB 4 2 0 1 0 1 1).1
     (by decide) (by decide),
   (interpolation_kernel_selection exG4 patRGGB 4 2 0 1 0 0 0).2.2.2.2.2.2
     (by decide)⟩

/-- Claim C8: a pattern with no Red phase or no Blue phase makes the
analysis fail (Python raises from `np.argwhere(...)[0]`) before any
strip is processed, producing no result. -/
theorem invalid_pattern_fails (g : ℕ → ℕ → ℤ) (h w : ℕ)
    (pat : ℕ → ℕ → ℕ) (bl : ℕ → ℤ) (s : ℕ)
    (hp : findPos pat 0 = none ∨ findPos pat 2 = none) :
    analyze g h w pat bl s =
      Except.error "IndexError: index 0 is out of bounds for axis 0 with size 0" := by
  rcases hp with hp | hp
  · cases hq : findPos pat 2 <;> simp [analyze, hp, hq]
  · cases hq : findPos pat 0 <;> simp [analyze, hp, hq]

/-- Witness for C8: the all-green pattern fails. -/
theorem invalid_pattern_fails_witness :
    analyze zeroG 2 2 patAllG bl0 100 =
      Except.error "IndexError: index 0 is out of bounds for axis 0 with size 0" :=
  invalid_pattern_fails zeroG 2 2 patAllG bl0 100 (Or.inl (by decide))

/-- Claim C9: the per-channel means are divided out only when the pixel
counter is non-zero — when the run's pixel count is 0 the analysis
fails (Python's ZeroDivisionError) instead of performing the division,
returning no result. -/
theorem zero_pixel_count_fails (g : ℕ → ℕ → ℤ) (h w : ℕ)
    (pat : ℕ → ℕ → ℕ) (bl : ℕ → ℤ) (s : ℕ) (rp bp : ℕ × ℕ)
    (hr : findPos pat 0 = some rp) (hb : findPos pat 2 = some bp)
    (hz : (runAccum (correctedQ g pat bl) h w s pat rp.1 bp.1).nPixels = 0) :
    (analyze g h w pat bl s).toOption = none := by
  by_cases hc : h ≠ 0 ∧ w = 0 <;>
    simp [analyze, hr, hb, hc, hz, Except.toOption]

/-- Witness for C9: a zero-height grid reaches finalization with
`n_pixels = 0` and the analysis fails. -/
theorem zero_pixel_count_fails_witness :
    (analyze zeroG 0 1 patRGGB bl0 100).toOption = none :=
  zero_pixel_count_fails zeroG 0 1 patRGGB bl0 100 (0, 0) (1, 1)
    (by decide) (by decide) (by decide)

/-- Claim C1 (code bug): with the source's strip height of 100, a
101-row, 1-column grid is folded into the statistics with 102 row
contributions, not 101. The first strip (rows 0-100, bottom padding row
100) reaches `actual_end == height`, so the `pad_bottom and actual_end <
height` trim is skipped and padding row 100 is counted; the second
strip (rows 99-100, top padding trimmed) then counts row 100 again. -/
theorem pixel_count_overcounted_at_boundary :
    (runAccum (correctedQ zeroG patRGGB bl0) 101 1 100 patRGGB 0 1).nPixels
      = 102 ∧ 102 ≠ 101 * 1 := by
  constructor
  · decide
  · decide

/-- Extract `meanB` from an analysis outcome (0 on failure). -/
def mBof : Except String AnalysisResult → ℚ
  | Except.ok r => r.meanB
  | Except.error _ => 0

/-- A zero-height image has no strips. -/
lemma stripStarts_height_zero (s : ℕ) : stripStarts 0 s = [] := by
  unfold stripStarts
  have hq : (0 + s - 1) / s = 0 := by
    rcases Nat.eq_zero_or_pos s with hs | hs
    · subst hs
      rfl
    · exact Nat.div_eq_of_lt (by omega)
  rw [hq]
  rfl

/-- With strip height at least the image height there is one strip. -/
lemma stripStarts_single (h s : ℕ) (h0 : 0 < h) (hs : h ≤ s) :
    stripStarts h s = [0] := by
  unfold stripStarts
  have hq : (h + s - 1) / s = 1 := Nat.div_eq_of_lt_le (by omega) (by omega)
  have h1 : List.range 1 = [0] := rfl
  rw [hq, h1]
  simp

/-- Claim C2 (amended): when a single strip covers the whole image
(strip height ≥ image height) there is no padding, no trimming, and a
zero row offset, so the streaming analysis coincides exactly with the
direct single-pass batch computation. -/
theorem single_strip_equals_batch (g : ℕ → ℕ → ℤ) (h w : ℕ)
    (pat : ℕ → ℕ → ℕ) (bl : ℕ → ℤ) (s : ℕ) (rp bp : ℕ × ℕ)
    (hr : findPos pat 0 = some rp) (hb : findPos pat 2 = some bp)
    (hw : 0 < w) (hs : h ≤ s) :
    analyze g h w pat bl s = batchAnalyze g h w pat bl := by
  have hnc : ¬(h ≠ 0 ∧ w = 0) := by omega
  rcases Nat.eq_zero_or_pos h with h0 | h0
  · subst h0
    have hrun : runAccum (correctedQ g pat bl) 0 w s pat rp.1 bp.1 =
        Accum.init := by
      unfold runAccum
      rw [stripStarts_height_zero]
      rfl
    simp [analyze, batchAnalyze, hr, hb, hrun, accumStrip, Accum.init,
      pixList]
  · have hnb : ¬(s < h) := by omega
    have hmin : min s h = h := by omega
    have hone : runAccum (correctedQ g pat bl) h w s pat rp.1 bp.1 =
        accumStrip Accum.init
          (demosaicR (correctedQ g pat bl) pat h w rp.1 0)
          (demosaicG (correctedQ g pat bl) pat h w 0)
          (demosaicB (correctedQ g pat bl) pat h w bp.1 0) h w := by
      unfold runAccum
      rw [stripStarts_single h s h0 hs]
      show stripStep (correctedQ g pat bl) h w s pat rp.1 bp.1 Accum.init 0 = _
      simp [stripStep, stripRows, hnb, hmin, shiftRows_zero]
    simp only [analyze, batchAnalyze, hr, hb, hone, if_neg hnc]

/-- Witness for the amended C2: one strip of height 5 over the 3×2
fixture reproduces the batch result. -/
theorem single_strip_equals_batch_witness :
    analyze exG2 3 2 patRGGB bl0 5 = batchAnalyze exG2 3 2 patRGGB bl0 :=
  single_strip_equals_batch exG2 3 2 patRGGB bl0 5 (0, 0) (1, 1)
    (by decide) (by decide) (by decide) (by decide)

unseal Rat.add Rat.mul Rat.inv Rat.sub in
/-- Claim C2 counterexample: on a 3×2 RGGB grid, streaming with strip
height 1 yields `meanB = 7` while a single strip covering the image
(strip height 3) — which coincides with the direct batch computation —
yields `meanB = 16/3`; the outputs differ and the relative error exceeds
`1e-9`. Strip-local `np.roll` wraparound gives boundary rows different
vertical neighbors, and the untrimmed bottom-padding row double-counts a
row, so maximal striping is not equivalent to no striping. -/
theorem streaming_differs_from_batch :
    mBof (analyze exG2 3 2 patRGGB bl0 1) ≠
      mBof (analyze exG2 3 2 patRGGB bl0 3) ∧
    (1 : ℚ) / 1000000000 * |mBof (batchAnalyze exG2 3 2 patRGGB bl0)| <
      |mBof (analyze exG2 3 2 patRGGB bl0 1) -
        mBof (batchAnalyze exG2 3 2 patRGGB bl0)| := by
  constructor
  · decide
  · decide

/-- Strip-local channel classification at row phase `k` agrees with the
full-image classification at image row `k + i`. -/
lemma chanAt_shift (pat : ℕ → ℕ → ℕ) (k i j : ℕ) :
    chanAt pat k i j = chanAt pat 0 (k + i) j := by
  have hm : (i + k % 2) % 2 = (k + i + 0 % 2) % 2 := by omega
  unfold chanAt rowPhase
  rw [hm]

/-- The seeded red plane of a shifted strip agrees with the full one. -/
lemma seedR_shift (cfa : ℕ → ℕ → ℚ) (pat : ℕ → ℕ → ℕ) (k i j : ℕ) :
    seedR (shiftRows cfa k) pat k i j = seedR cfa pat 0 (k + i) j := by
  unfold seedR shiftRows
  rw [chanAt_shift]

/-- The seeded green plane of a shifted strip agrees with the full one. -/
lemma seedG_shift (cfa : ℕ → ℕ → ℚ) (pat : ℕ → ℕ → ℕ) (k i j : ℕ) :
    seedG (shiftRows cfa k) pat k i j = seedG cfa pat 0 (k + i) j := by
  unfold seedG shiftRows
  rw [chanAt_shift]

/-- The seeded blue plane of a shifted strip agrees with the full one. -/
lemma seedB_shift (cfa : ℕ → ℕ → ℚ) (pat : ℕ → ℕ → ℕ) (k i j : ℕ) :
    seedB (shiftRows cfa k) pat k i j = seedB cfa pat 0 (k + i) j := by
  unfold seedB shiftRows
  rw [chanAt_shift]

/-- Rolling up from an interior row does not wrap. -/
lemma rollUp_interior (n i : ℕ) (h1 : 1 ≤ i) (h2 : i < n) :
    rollUp n i = i - 1 := by
  unfold rollUp
  rw [show i + n - 1 = (i - 1) + n by omega, Nat.add_mod_right]
  exact Nat.mod_eq_of_lt (by omega)

/-- Rolling down from an interior row does not wrap. -/
lemma rollDn_interior (n i : ℕ) (h2 : i + 1 < n) : rollDn n i = i + 1 := by
  unfold rollDn
  exact Nat.mod_eq_of_lt h2

/-- Claim C3 interior-row agreement for the red plane. -/
lemma demosaicR_interior (cfa : ℕ → ℕ → ℚ) (pat : ℕ → ℕ → ℕ)
    (rpRow h w k s j : ℕ) (h1 : 1 ≤ s) (h2 : s + 2 ≤ h - k) :
    demosaicR (shiftRows cfa k) pat (h - k) w rpRow k s j =
      demosaicR cfa pat h w rpRow 0 (k + s) j := by
  have hupS : rollUp (h - k) s = s - 1 := rollUp_interior _ _ h1 (by omega)
  have hdnS : rollDn (h - k) s = s + 1 := rollDn_interior _ _ (by omega)
  have hupF : rollUp h (k + s) = k + (s - 1) := by
    unfold rollUp
    rw [show k + s + h - 1 = (k + (s - 1)) + h by omega, Nat.add_mod_right]
    exact Nat.mod_eq_of_lt (by omega)
  have hdnF : rollDn h (k + s) = k + (s + 1) := by
    unfold rollDn
    rw [show k + s + 1 = k + (s + 1) by omega]
    exact Nat.mod_eq_of_lt (by omega)
  have hch : chanAt pat k s j = chanAt pat 0 (k + s) j := chanAt_shift pat k s j
  have hsr : (s % 2 = (rpRow + k) % 2) = ((k + s) % 2 = (rpRow + 0) % 2) := by
    apply propext
    constructor <;> omega
  have hseed : ∀ a b, seedR (shiftRows cfa k) pat k a b = seedR cfa pat 0 (k + a) b :=
    fun a b => seedR_shift cfa pat k a b
  have havgD : avgD (seedR (shiftRows cfa k) pat k) (h - k) w s j =
      avgD (seedR cfa pat 0) h w (k + s) j := by
    unfold avgD
    rw [hupS, hdnS, hupF, hdnF]
    simp only [hseed]
  have havgH : avgH (seedR (shiftRows cfa k) pat k) w s j =
      avgH (seedR cfa pat 0) w (k + s) j := by
    unfold avgH
    simp only [hseed]
  have havgV : avgV (seedR (shiftRows cfa k) pat k) (h - k) s j =
      avgV (seedR cfa pat 0) h (k + s) j := by
    unfold avgV
    rw [hupS, hdnS, hupF, hdnF]
    simp only [hseed]
  unfold demosaicR planeR2 planeR1
  rw [hch]
  simp only [hsr, havgD, havgH, havgV, hseed]

/-- Claim C3 interior-row agreement for the blue plane. -/
lemma demosaicB_interior (cfa : ℕ → ℕ → ℚ) (pat : ℕ → ℕ → ℕ)
    (bpRow h w k s j : ℕ) (h1 : 1 ≤ s) (h2 : s + 2 ≤ h - k) :
    demosaicB (shiftRows cfa k) pat (h - k) w bpRow k s j =
      demosaicB cfa pat h w bpRow 0 (k + s) j := by
  have hupS : rollUp (h - k) s = s - 1 := rollUp_interior _ _ h1 (by omega)
  have hdnS : rollDn (h - k) s = s + 1 := rollDn_interior _ _ (by omega)
  have hupF : rollUp h (k + s) = k + (s - 1) := by
    unfold rollUp
    rw [show k + s + h - 1 = (k + (s - 1)) + h by omega, Nat.add_mod_right]
    exact Nat.mod_eq_of_lt (by omega)
  have hdnF : rollDn h (k + s) = k + (s + 1) := by
    unfold rollDn
    rw [show k + s + 1 = k + (s + 1) by omega]
    exact Nat.mod_eq_of_lt (by omega)
  have hch : chanAt pat k s j = chanAt pat 0 (k + s) j := chanAt_shift pat k s j
  have hsr : (s % 2 = (bpRow + k) % 2) = ((k + s) % 2 = (bpRow + 0) % 2) := by
    apply propext
    constructor <;> omega
  have hseed : ∀ a b, seedB (shiftRows cfa k) pat k a b = seedB cfa pat 0 (k + a) b :=
    fun a b => seedB_shift cfa pat k a b
  have havgD : avgD (seedB (shiftRows cfa k) pat k) (h - k) w s j =
      avgD (seedB cfa pat 0) h w (k + s) j := by
    unfold avgD
    rw [hupS, hdnS, hupF, hdnF]
    simp only [hseed]
  have havgH : avgH (seedB (shiftRows cfa k) pat k) w s j =
      avgH (seedB cfa pat 0) w (k + s) j := by
    unfold avgH
    simp only [hseed]
  have havgV : avgV (seedB (shiftRows cfa k) pat k) (h - k) s j =
      avgV (seedB cfa pat 0) h (k + s) j := by
    unfold avgV
    rw [hupS, hdnS, hupF, hdnF]
    simp only [hseed]
  unfold demosaicB planeB2 planeB1
  rw [hch]
  simp only [hsr, havgD, havgH, havgV, hseed]

/-- Claim C3 interior-row agreement for the green plane. -/
lemma demosaicG_interior (cfa : ℕ → ℕ → ℚ) (pat : ℕ → ℕ → ℕ)
    (h w k s j : ℕ) (h1 : 1 ≤ s) (h2 : s + 2 ≤ h - k) :
    demosaicG (shiftRows cfa k) pat (h - k) w k s j =
      demosaicG cfa pat h w 0 (k + s) j := by
  have hupS : rollUp (h - k) s = s - 1 := rollUp_interior _ _ h1 (by omega)
  have hdnS : rollDn (h - k) s = s + 1 := rollDn_interior _ _ (by omega)
  have hupF : rollUp h (k + s) = k + (s - 1) := by
    unfold rollUp
    rw [show k + s + h - 1 = (k + (s - 1)) + h by omega, Nat.add_mod_right]
    exact Nat.mod_eq_of_lt (by omega)
  have hdnF : rollDn h (k + s) = k + (s + 1) := by
    unfold rollDn
    rw [show k + s + 1 = k + (s + 1) by omega]
    exact Nat.mod_eq_of_lt (by omega)
  have hch : chanAt pat k s j = chanAt pat 0 (k + s) j := chanAt_shift pat k s j
  have hseed : ∀ a b, seedG (shiftRows cfa k) pat k a b = seedG cfa pat 0 (k + a) b :=
    fun a b => seedG_shift cfa pat k a b
  have havgX : avgX (seedG (shiftRows cfa k) pat k) (h - k) w s j =
      avgX (seedG cfa pat 0) h w (k + s) j := by
    unfold avgX
    rw [hupS, hdnS, hupF, hdnF]
    simp only [hseed]
  unfold demosaicG
  rw [hch]
  simp only [havgX, hseed]

/-- Claim C3 (amended): demosaicing a sub-region as the second of two
strips (row offset `k`, masks and same-row tests adjusted by
`(nativePatternRow + rowOffset) mod 2`) reproduces the full-image pass
at every interior strip row — any row that is neither the strip's first
nor its last, so that the `np.roll` neighbor lookups do not wrap. -/
theorem strip_demosaic_interior_agrees (cfa : ℕ → ℕ → ℚ)
    (pat : ℕ → ℕ → ℕ) (rpRow bpRow h w k s j : ℕ)
    (h1 : 1 ≤ s) (h2 : s + 2 ≤ h - k) :
    demosaicR (shiftRows cfa k) pat (h - k) w rpRow k s j =
      demosaicR cfa pat h w rpRow 0 (k + s) j ∧
    demosaicG (shiftRows cfa k) pat (h - k) w k s j =
      demosaicG cfa pat h w 0 (k + s) j ∧
    demosaicB (shiftRows cfa k) pat (h - k) w bpRow k s j =
      demosaicB cfa pat h w bpRow 0 (k + s) j :=
  ⟨demosaicR_interior cfa pat rpRow h w k s j h1 h2,
   demosaicG_interior cfa pat h w k s j h1 h2,
   demosaicB_interior cfa pat bpRow h w k s j h1 h2⟩

/-- Witness for the amended C3 at an interior row of a concrete strip. -/
theorem strip_demosaic_interior_agrees_witness :
    demosaicR (shiftRows exG4 1) patRGGB 4 2 0 1 1 0 =
      demosaicR exG4 patRGGB 5 2 0 0 2 0 ∧
    demosaicG (shiftRows exG4 1) patRGGB 4 2 1 1 0 =
      demosaicG exG4 patRGGB 5 2 0 2 0 ∧
    demosaicB (shiftRows exG4 1) patRGGB 4 2 1 1 1 0 =
      demosaicB exG4 patRGGB 5 2 1 0 2 0 :=
  strip_demosaic_interior_agrees exG4 patRGGB 0 1 5 2 1 1 0
    (by decide) (by decide)

/-- Masked accumulation over the valid cells equals per-pixel guarded
accumulation: a filtered sum is the sum of the guarded terms. -/
lemma filter_map_sum_eq (l : List (ℕ × ℕ)) (q : ℕ × ℕ → Prop)
    [DecidablePred q] (f : ℕ × ℕ → ℚ) :
    ((l.filter fun p => decide (q p)).map f).sum =
      (l.map fun p => if q p then f p else 0).sum := by
  induction l with
  | nil => rfl
  | cons a t ih =>
      by_cases hq : q a
      · simp [List.filter_cons, hq, ih]
      · simp [List.filter_cons, hq, ih]

/-- The length of a filtered list is the sum of per-element indicator
terms. -/
lemma filter_length_eq (l : List (ℕ × ℕ)) (q : ℕ × ℕ → Prop)
    [DecidablePred q] :
    (l.filter fun p => decide (q p)).length =
      (l.map fun p => if q p then (1 : ℕ) else 0).sum := by
  induction l with
  | nil => rfl
  | cons a t ih =>
      by_cases hq : q a
      · simp [List.filter_cons, hq, ih]
        omega
      · simp [List.filter_cons, hq, ih]

/-- The seeded red plane of an all-zero strip is zero. -/
lemma seedR_of_zero (pat : ℕ → ℕ → ℕ) (off : ℕ) :
    seedR (fun _ _ => (0 : ℚ)) pat off = fun _ _ => 0 := by
  funext a b
  unfold seedR
  split <;> rfl

/-- The seeded green plane of an all-zero strip is zero. -/
lemma seedG_of_zero (pat : ℕ → ℕ → ℕ) (off : ℕ) :
    seedG (fun _ _ => (0 : ℚ)) pat off = fun _ _ => 0 := by
  funext a b
  unfold seedG
  split <;> rfl

/-- The seeded blue plane of an all-zero strip is zero. -/
lemma seedB_of_zero (pat : ℕ → ℕ → ℕ) (off : ℕ) :
    seedB (fun _ _ => (0 : ℚ)) pat off = fun _ _ => 0 := by
  funext a b
  unfold seedB
  split <;> rfl

/-- Demosaicing an all-zero strip yields zero everywhere (red). -/
lemma demosaicR_of_zero (pat : ℕ → ℕ → ℕ) (h w rpRow off i j : ℕ) :
    demosaicR (fun _ _ => (0 : ℚ)) pat h w rpRow off i j = 0 := by
  unfold demosaicR planeR2 planeR1
  rw [seedR_of_zero]
  split_ifs <;> simp [avgD, avgH, avgV]

/-- Demosaicing an all-zero strip yields zero everywhere (green). -/
lemma demosaicG_of_zero (pat : ℕ → ℕ → ℕ) (h w off i j : ℕ) :
    demosaicG (fun _ _ => (0 : ℚ)) pat h w off i j = 0 := by
  unfold demosaicG
  rw [seedG_of_zero]
  split_ifs <;> simp [avgX]

/-- Demosaicing an all-zero strip yields zero everywhere (blue). -/
lemma demosaicB_of_zero (pat : ℕ → ℕ → ℕ) (h w bpRow off i j : ℕ) :
    demosaicB (fun _ _ => (0 : ℚ)) pat h w bpRow off i j = 0 := by
  unfold demosaicB planeB2 planeB1
  rw [seedB_of_zero]
  split_ifs <;> simp [avgD, avgH, avgV]

/-- Folding an all-zero strip leaves every chromaticity accumulator
unchanged: no cell passes the strict `R+G+B > 0` test. -/
lemma accumStrip_zero_chrom (acc : Accum) (R G B : ℕ → ℕ → ℚ)
    (rows w : ℕ) (hR : ∀ i j, R i j = 0) (hG : ∀ i j, G i j = 0)
    (hB : ∀ i j, B i j = 0) :
    (accumStrip acc R G B rows w).sumRChrom = acc.sumRChrom ∧
    (accumStrip acc R G B rows w).sumGChrom = acc.sumGChrom ∧
    (accumStrip acc R G B rows w).sumRChromSq = acc.sumRChromSq ∧
    (accumStrip acc R G B rows w).sumGChromSq = acc.sumGChromSq ∧
    (accumStrip acc R G B rows w).nChrom = acc.nChrom := by
  have hfil : ((pixList rows w).filter fun p =>
      decide (0 < R p.1 p.2 + G p.1 p.2 + B p.1 p.2)) = [] := by
    apply List.filter_eq_nil_iff.mpr
    intro p hp
    simp [hR, hG, hB]
  unfold accumStrip
  simp [hfil]

/-- One strip step over an all-zero corrected grid leaves every
chromaticity accumulator unchanged. -/
lemma stripStep_zero_chrom (corr : ℕ → ℕ → ℚ) (h w s : ℕ)
    (pat : ℕ → ℕ → ℕ) (rr br : ℕ) (acc : Accum) (st : ℕ)
    (hcorr : ∀ i j, corr i j = 0) :
    (stripStep corr h w s pat rr br acc st).sumRChrom = acc.sumRChrom ∧
    (stripStep corr h w s pat rr br acc st).sumGChrom = acc.sumGChrom ∧
    (stripStep corr h w s pat rr br acc st).sumRChromSq = acc.sumRChromSq ∧
    (stripStep corr h w s pat rr br acc st).sumGChromSq = acc.sumGChromSq ∧
    (stripStep corr h w s pat rr br acc st).nChrom = acc.nChrom := by
  have hshift : ∀ t, shiftRows corr t = fun _ _ => (0 : ℚ) := by
    intro t
    funext a b
    exact hcorr (t + a) b
  simp only [stripStep]
  rw [hshift]
  exact accumStrip_zero_chrom acc _ _ _ _ _
    (fun i j => demosaicR_of_zero pat _ w _ _ _ j)
    (fun i j => demosaicG_of_zero pat _ w _ _ j)
    (fun i j => demosaicB_of_zero pat _ w _ _ _ j)

/-- The whole strip loop over an all-zero corrected grid leaves every
chromaticity accumulator unchanged. -/
lemma foldl_zero_chrom (corr : ℕ → ℕ → ℚ) (h w s : ℕ)
    (pat : ℕ → ℕ → ℕ) (rr br : ℕ) (hcorr : ∀ i j, corr i j = 0) :
    ∀ (l : List ℕ) (acc : Accum),
      (l.foldl (stripStep corr h w s pat rr br) acc).sumRChrom = acc.sumRChrom ∧
      (l.foldl (stripStep corr h w s pat rr br) acc).sumGChrom = acc.sumGChrom ∧
      (l.foldl (stripStep corr h w s pat rr br) acc).sumRChromSq = acc.sumRChromSq ∧
      (l.foldl (stripStep corr h w s pat rr br) acc).sumGChromSq = acc.sumGChromSq ∧
      (l.foldl (stripStep corr h w s pat rr br) acc).nChrom = acc.nChrom := by
  intro l
  induction l with
  | nil => intro acc; exact ⟨rfl, rfl, rfl, rfl, rfl⟩
  | cons a t ih =>
      intro acc
      have hstep := stripStep_zero_chrom corr h w s pat rr br acc a hcorr
      have hrest := ih (stripStep corr h w s pat rr br acc a)
      rw [List.foldl_cons]
      exact ⟨hrest.1.trans hstep.1, hrest.2.1.trans hstep.2.1,
        hrest.2.2.1.trans hstep.2.2.1, hrest.2.2.2.1.trans hstep.2.2.2.1,
        hrest.2.2.2.2.trans hstep.2.2.2.2⟩

/-- The pixel counter after a strip step. -/
lemma stripStep_nPixels_eq (corr : ℕ → ℕ → ℚ) (h w s : ℕ)
    (pat : ℕ → ℕ → ℕ) (rr br : ℕ) (acc : Accum) (st : ℕ) :
    (stripStep corr h w s pat rr br acc st).nPixels =
      acc.nPixels + stripRows h s st * w := rfl

/-- The pixel counter never decreases along the strip loop. -/
lemma foldl_nPixels_le (corr : ℕ → ℕ → ℚ) (h w s : ℕ)
    (pat : ℕ → ℕ → ℕ) (rr br : ℕ) :
    ∀ (l : List ℕ) (acc : Accum),
      acc.nPixels ≤ (l.foldl (stripStep corr h w s pat rr br) acc).nPixels := by
  intro l
  induction l with
  | nil => intro acc; exact le_refl _
  | cons a t ih =>
      intro acc
      rw [List.foldl_cons]
      exact le_trans (by rw [stripStep_nPixels_eq]; omega) (ih _)

/-- The first strip of a non-empty image contributes at least one row. -/
lemma firstStrip_nPixels (corr : ℕ → ℕ → ℚ) (h w s : ℕ)
    (pat : ℕ → ℕ → ℕ) (rr br : ℕ) (h0 : 0 < h) (hs : 0 < s) :
    w ≤ (stripStep corr h w s pat rr br Accum.init 0).nPixels := by
  rw [stripStep_nPixels_eq]
  have h1 : 0 < stripRows h s 0 := by
    simp only [stripRows]
    split_ifs <;> omega
  have h2 := Nat.le_mul_of_pos_left w h1
  simpa [Accum.init] using h2

/-- A run over a non-empty image counts at least one pixel. -/
lemma runAccum_nPixels_pos (corr : ℕ → ℕ → ℚ) (h w s : ℕ)
    (pat : ℕ → ℕ → ℕ) (rr br : ℕ) (h0 : 0 < h) (hw : 0 < w)
    (hs : 0 < s) :
    (runAccum corr h w s pat rr br).nPixels ≠ 0 := by
  unfold runAccum stripStarts
  obtain ⟨m, hm⟩ : ∃ m, (h + s - 1) / s = m + 1 := by
    have h1 : 1 ≤ (h + s - 1) / s := (Nat.one_le_div_iff hs).mpr (by omega)
    exact ⟨(h + s - 1) / s - 1, by omega⟩
  rw [hm, List.range_succ_eq_map, List.map_cons, List.foldl_cons]
  have hfs : w ≤ (stripStep corr h w s pat rr br Accum.init (0 * s)).nPixels := by
    rw [show 0 * s = 0 from by omega]
    exact firstStrip_nPixels corr h w s pat rr br h0 hs
  have hge : w ≤ ((List.map (· * s) (List.map Nat.succ (List.range m))).foldl
      (stripStep corr h w s pat rr br)
      (stripStep corr h w s pat rr br Accum.init (0 * s))).nPixels :=
    le_trans hfs (foldl_nPixels_le corr h w s pat rr br _ _)
  omega

/-- Claim C4: a pixel of a demosaiced strip contributes to the
chromaticity sums, sums-of-squares and valid counter exactly when its
`R+G+B` is strictly positive (zero-sum pixels contribute nothing and
are not counted); and the analysis of an all-zero image succeeds with
`meanRChromaticity = meanGChromaticity = 0` and zero clamped variances
(so both reported stds are exactly 0), rather than failing. -/
theorem chromaticity_strict_positive_policy :
    (∀ (acc : Accum) (R G B : ℕ → ℕ → ℚ) (rows w : ℕ),
      (accumStrip acc R G B rows w).sumRChrom = acc.sumRChrom +
        ((pixList rows w).map fun p =>
          if 0 < R p.1 p.2 + G p.1 p.2 + B p.1 p.2 then
            R p.1 p.2 / (R p.1 p.2 + G p.1 p.2 + B p.1 p.2) else 0).sum ∧
      (accumStrip acc R G B rows w).sumGChrom = acc.sumGChrom +
        ((pixList rows w).map fun p =>
          if 0 < R p.1 p.2 + G p.1 p.2 + B p.1 p.2 then
            G p.1 p.2 / (R p.1 p.2 + G p.1 p.2 + B p.1 p.2) else 0).sum ∧
      (accumStrip acc R G B rows w).sumRChromSq = acc.sumRChromSq +
        ((pixList rows w).map fun p =>
          if 0 < R p.1 p.2 + G p.1 p.2 + B p.1 p.2 then
            R p.1 p.2 / (R p.1 p.2 + G p.1 p.2 + B p.1 p.2) *
              (R p.1 p.2 / (R p.1 p.2 + G p.1 p.2 + B p.1 p.2)) else 0).sum ∧
      (accumStrip acc R G B rows w).sumGChromSq = acc.sumGChromSq +
        ((pixList rows w).map fun p =>
          if 0 < R p.1 p.2 + G p.1 p.2 + B p.1 p.2 then
            G p.1 p.2 / (R p.1 p.2 + G p.1 p.2 + B p.1 p.2) *
              (G p.1 p.2 / (R p.1 p.2 + G p.1 p.2 + B p.1 p.2)) else 0).sum ∧
      (accumStrip acc R G B rows w).nChrom = acc.nChrom +
        ((pixList rows w).map fun p =>
          if 0 < R p.1 p.2 + G p.1 p.2 + B p.1 p.2 then (1 : ℕ) else 0).sum) ∧
    (∀ (h w : ℕ) (pat : ℕ → ℕ → ℕ) (bl : ℕ → ℤ) (s : ℕ) (rp bp : ℕ × ℕ),
      findPos pat 0 = some rp → findPos pat 2 = some bp →
      0 < h → 0 < w → 0 < s → (∀ c, 0 ≤ bl c) →
      ∃ res, analyze zeroG h w pat bl s = Except.ok res ∧
        res.meanRChrom = 0 ∧ res.meanGChrom = 0 ∧
        res.varRClamped = 0 ∧ res.varGClamped = 0) := by
  constructor
  · intro acc R G B rows w
    refine ⟨?_, ?_, ?_, ?_, ?_⟩
    · show acc.sumRChrom + _ = _
      rw [filter_map_sum_eq]
    · show acc.sumGChrom + _ = _
      rw [filter_map_sum_eq]
    · show acc.sumRChromSq + _ = _
      rw [filter_map_sum_eq]
    · show acc.sumGChromSq + _ = _
      rw [filter_map_sum_eq]
    · show acc.nChrom + _ = _
      rw [filter_length_eq]
  · intro h w pat bl s rp bp hr hb h0 hw hs hbl
    have hcz : ∀ i j, correctedQ zeroG pat bl i j = 0 := by
      intro i j
      unfold correctedQ
      rw [blackCorrect_eq]
      have hblc := hbl (pat (i % 2) (j % 2))
      have hmx : max 0 (zeroG i j - bl (pat (i % 2) (j % 2))) = 0 := by
        simp only [zeroG]
        omega
      rw [hmx]
      rfl
    have hchrom := foldl_zero_chrom (correctedQ zeroG pat bl) h w s pat
      rp.1 bp.1 hcz (stripStarts h s) Accum.init
    have hnp := runAccum_nPixels_pos (correctedQ zeroG pat bl) h w s pat
      rp.1 bp.1 h0 hw hs
    have hnc : (runAccum (correctedQ zeroG pat bl) h w s pat rp.1 bp.1).nChrom
        = 0 := hchrom.2.2.2.2
    refine ⟨finalize h w (runAccum (correctedQ zeroG pat bl) h w s pat rp.1 bp.1),
      ?_, ?_, ?_, ?_, ?_⟩
    · simp only [analyze, hr, hb]
      rw [if_neg (by omega), if_neg hnp]
    · unfold finalize
      rw [if_neg (by omega)]
    · unfold finalize
      rw [if_neg (by omega)]
    · unfold finalize
      rw [if_neg (by omega)]
    · unfold finalize
      rw [if_neg (by omega)]

/-- Projection of the four chromaticity outputs of an analysis. -/
def chromOf : Except String AnalysisResult → Option (ℚ × ℚ × ℚ × ℚ)
  | Except.ok r => some (r.meanRChrom, r.meanGChrom, r.varRClamped, r.varGClamped)
  | Except.error _ => none

/-- Witness for C4: the analysis of an all-zero 2×2 image succeeds with
all four chromaticity outputs equal to 0. -/
theorem chromaticity_strict_positive_policy_witness :
    chromOf (analyze zeroG 2 2 patRGGB bl0 100) = some (0, 0, 0, 0) := by
  obtain ⟨res, hok, h1, h2, h3, h4⟩ :=
    chromaticity_strict_positive_policy.2 2 2 patRGGB bl0 100 (0, 0) (1, 1)
      (by decide) (by decide) (by decide) (by decide) (by decide)
      (fun c => le_refl 0)
  rw [hok]
  simp [chromOf, h1, h2, h3, h4]

unseal Rat.add Rat.mul Rat.inv Rat.sub in
/-- Claim C3 counterexample: demosaicing rows 2-3 of the 4×2 fixture as
the second strip (row offset 2) yields blue 0 at the strip's first cell,
while the full-image pass yields blue 4 at the same image cell (2,0):
the strip's first row wraps vertically inside the strip instead of
reading image row 1. -/
theorem strip_demosaic_differs_in_overlap :
    demosaicB (shiftRows exG4 2) patRGGB 2 2 1 2 0 0 = 0 ∧
    demosaicB exG4 patRGGB 4 2 1 0 2 0 = 4 := by
  constructor
  · decide
  · decide

end UVSN
